import Mathlib

/-!
Verification of the mail protocol test harness scripts.

The repository consists of small Python scripts that drive a live SMTP and
IMAP server: `send-smtp-raw.py`, `test-imap-e2e.py`, `test-imap-all.py`,
`test-imap-full.py`, `test-imap.py` and `test_spf_dkim.py`.  This file
embeds the pure decision logic of those scripts (substring checks,
occurrence counting, tag sequences, maildir resolution, exit codes) as
Lean functions and proves the specified properties about them.
-/

namespace MailHarness

/-- Boolean substring containment over character lists.  Models the Python
operator `needle in haystack` on strings: true iff `needle` occurs
contiguously in the haystack (true for the empty needle). -/
def occursIn (needle : List Char) : List Char → Bool
  | [] => needle.isEmpty
  | c :: rest => needle.isPrefixOf (c :: rest) || occursIn needle rest

/-- Python `needle in hay` on strings. -/
def pyIn (needle hay : String) : Bool := occursIn needle.data hay.data

/-- `occursIn` decides the contiguous-sublist relation. -/
theorem occursIn_iff (needle : List Char) :
    ∀ hay : List Char, occursIn needle hay = true ↔ needle <:+: hay := by
  intro hay
  induction hay with
  | nil =>
    simp [occursIn, List.isEmpty_iff, List.infix_nil]
  | cons c rest ih =>
    simp [occursIn, ih, List.infix_cons_iff, Bool.or_eq_true]

/-- `pyIn` decides the substring relation on the underlying character data. -/
theorem pyIn_iff (needle hay : String) :
    pyIn needle hay = true ↔ needle.data <:+: hay.data :=
  occursIn_iff needle.data hay.data

/-- Fuel-driven scan behind `pyCount`: at each position, if the needle
matches, count it and resume after the match, otherwise advance one
character.  The fuel only serves termination; `hay.length` is enough. -/
def pyCountFuel (needle : List Char) : Nat → List Char → Nat
  | 0, _ => 0
  | _ + 1, [] => 0
  | fuel + 1, c :: rest =>
    if needle.isPrefixOf (c :: rest) then
      1 + pyCountFuel needle fuel (rest.drop (needle.length - 1))
    else
      pyCountFuel needle fuel rest

/-- Python `hay.count(needle)`: number of non-overlapping occurrences of
`needle` in `hay`, scanning left to right (for the empty needle Python
returns `len(hay) + 1`). -/
def pyCount (needle hay : List Char) : Nat :=
  if needle.isEmpty then hay.length + 1 else pyCountFuel needle hay.length hay

/-- Split a character list at newline characters, modelling Python
`text.split(chr(10))`: always returns at least one (possibly empty) line,
and a trailing newline yields a trailing empty line. -/
def splitOnNl : List Char → List (List Char)
  | [] => [[]]
  | c :: rest =>
    match splitOnNl rest with
    | [] => [[]]
    | l :: ls => if c = '\n' then [] :: l :: ls else (c :: l) :: ls

theorem splitOnNl_ne_nil (cs : List Char) : splitOnNl cs ≠ [] := by
  induction cs with
  | nil => simp [splitOnNl]
  | cons c rest ih =>
    simp only [splitOnNl]
    cases hs : splitOnNl rest with
    | nil => simp
    | cons l ls =>
      by_cases hc : c = '\n' <;> simp [hc]

/-- The first line produced by `splitOnNl` is an initial segment of the
input. -/
theorem splitOnNl_head_leads :
    ∀ (cs l : List Char) (ls : List (List Char)),
      splitOnNl cs = l :: ls → l <+: cs := by
  intro cs
  induction cs with
  | nil =>
    intro l ls h
    simp only [splitOnNl] at h
    cases h
    exact List.nil_prefix
  | cons c rest ih =>
    intro l ls h
    simp only [splitOnNl] at h
    cases hs : splitOnNl rest with
    | nil => exact absurd hs (splitOnNl_ne_nil rest)
    | cons l₀ ls₀ =>
      rw [hs] at h
      dsimp only at h
      by_cases hc : c = '\n'
      · rw [if_pos hc] at h
        cases h
        exact List.nil_prefix
      · rw [if_neg hc] at h
        injection h with hl hls
        subst hl
        rcases ih l₀ ls₀ hs with ⟨t, ht⟩
        exact ⟨t, by simp [← ht]⟩

/-- Every line produced by `splitOnNl` occurs contiguously in the input. -/
theorem mem_splitOnNl_infix :
    ∀ (cs l : List Char), l ∈ splitOnNl cs → l <:+: cs := by
  intro cs
  induction cs with
  | nil =>
    intro l h
    simp only [splitOnNl, List.mem_singleton] at h
    simp [h]
  | cons c rest ih =>
    intro l h
    simp only [splitOnNl] at h
    cases hs : splitOnNl rest with
    | nil => exact absurd hs (splitOnNl_ne_nil rest)
    | cons l₀ ls₀ =>
      rw [hs] at h
      dsimp only at h
      by_cases hc : c = '\n'
      · rw [if_pos hc] at h
        rcases List.mem_cons.mp h with h1 | h2
        · simp [h1]
        · exact List.infix_cons (ih l (hs ▸ h2))
      · rw [if_neg hc] at h
        rcases List.mem_cons.mp h with h1 | h2
        · subst h1
          exact (splitOnNl_head_leads (c :: rest) (c :: l₀) ls₀
            (by simp only [splitOnNl]; rw [hs]; dsimp only; rw [if_neg hc])).isInfix
        · exact List.infix_cons (ih l (hs ▸ List.mem_cons_of_mem l₀ h2))

/-! ### send-smtp-raw.py -/

/-- Subject header of the message submitted by `send_email` in
`send-smtp-raw.py` (line 44): `Subject: E2E Test Email - {timestamp}`. -/
def e2e_subject (timestamp : String) : String := "E2E Test Email - " ++ timestamp

/-! ### test-imap-e2e.py -/

/-- The check on the FETCH response in `test_imap_read`
(`test-imap-e2e.py` line 47): `"E2E Test Email" in response`. -/
def e2e_found (response : String) : Bool := pyIn "E2E Test Email" response

/-- The nested confirmation in `test_imap_read` (`test-imap-e2e.py`
lines 47 and 52): the response passes both the subject-text check and the
body-marker check `"full stack is working" in response`. -/
def e2e_confirmed (response : String) : Bool :=
  e2e_found response && pyIn "full stack is working" response

/-! ### test-imap-all.py -/

/-- Message-count approximation in `test_imap_all` (`test-imap-all.py`
line 45): `email_count = response.count("* ") - 1`.  Counts non-overlapping
occurrences of the two-character substring anywhere in the text, then
subtracts one; the result is an integer and may be negative. -/
def approximateMessageCount (response : String) : Int :=
  (pyCount "* ".data response.data : Int) - 1

/-- Modelled from the spec's words only (for comparison with the code):
the number of lines of the text that begin with `"* "`, minus one. -/
def approximateMessageCountSpec (response : String) : Int :=
  ((splitOnNl response.data).countP (fun l => "* ".data.isPrefixOf l) : Int) - 1

/-! ### test-imap-full.py -/

/-- Step check in `test_complete_flow` (`test-imap-full.py` lines 30, 39,
48): `"OK" in response` — plain substring containment anywhere in the
response text. -/
def statusOk (response : String) : Bool := pyIn "OK" response

/-- Modelled from the spec's words only (for comparison with the code):
true iff some line of the response starts with the issued tag followed by a
space and contains `"OK"` on that same line. -/
def statusOkSpec (tag response : String) : Bool :=
  (splitOnNl response.data).any
    (fun l => (tag ++ " ").data.isPrefixOf l && occursIn "OK".data l)

/-- The fixed subject text checked by the FETCH assertion is an initial
segment of every submitted subject line. -/
theorem e2e_subject_text_leads (timestamp : String) :
    "E2E Test Email".data <+: (e2e_subject timestamp).data := by
  have h1 : "E2E Test Email".data <+: "E2E Test Email - ".data :=
    ⟨" - ".data, by decide⟩
  have h2 : (e2e_subject timestamp).data = "E2E Test Email - ".data ++ timestamp.data := by
    simp [e2e_subject]
  rw [h2]
  exact h1.trans ( List.prefix_append _ _)

/-- C1 counterexample: a FETCH response that contains the fixed text
`"E2E Test Email"` and the body marker — and therefore passes both checks
of `test_imap_read` — without containing the exact submitted Subject
string `"E2E Test Email - 2024-01-01 00:00:00"`.  So the scenario does not
assert presence of the exact unique Subject. -/
theorem c1_counterexample :
    e2e_confirmed "Subject: E2E Test Email\n\nThe full stack is working!\nA003 OK" = true ∧
    pyIn (e2e_subject "2024-01-01 00:00:00")
      "Subject: E2E Test Email\n\nThe full stack is working!\nA003 OK" = false := by
  constructor <;> decide

/-- C1 (amended): the FETCH step of the round-trip scenario asserts, by
exact substring match, that the fetched content contains the fixed Subject
text `"E2E Test Email"` and the body marker `"full stack is working"` —
not the full timestamped Subject.  In particular any response that does
contain the exact submitted Subject together with the marker passes the
assertion, since the fixed text is an initial segment of every submitted
Subject. -/
theorem c1_subject_assertion :
    (∀ response : String, e2e_confirmed response = true ↔
      ("E2E Test Email".data <:+: response.data ∧
       "full stack is working".data <:+: response.data)) ∧
    (∀ timestamp response : String,
      (e2e_subject timestamp).data <:+: response.data →
      "full stack is working".data <:+: response.data →
      e2e_confirmed response = true) := by
  constructor
  · intro response
    simp only [e2e_confirmed, e2e_found, Bool.and_eq_true, pyIn_iff]
  · intro timestamp response hsub hmark
    have hfix : "E2E Test Email".data <:+: response.data :=
      ((e2e_subject_text_leads timestamp).isInfix).trans hsub
    simp only [e2e_confirmed, e2e_found, Bool.and_eq_true, pyIn_iff]
    exact ⟨hfix, hmark⟩

/-- C1 witness: a concrete response containing the exact submitted Subject
for timestamp `"T1"` and the marker passes the scenario's assertion. -/
theorem c1_subject_assertion_witness :
    e2e_confirmed "Subject: E2E Test Email - T1\nThe full stack is working!" = true :=
  c1_subject_assertion.2 "T1" "Subject: E2E Test Email - T1\nThe full stack is working!"
    ((pyIn_iff _ _).mp (by decide)) ((pyIn_iff _ _).mp (by decide))

/-- C2 counterexample: a response with a `"* "` occurrence in the middle of
a line and no line beginning with `"* "`.  The code computes `1 - 1 = 0`,
while counting lines that begin with `"* "` minus one gives `-1`. -/
theorem c2_counterexample :
    approximateMessageCount "x * y\nA002 OK SELECT completed" = 0 ∧
    approximateMessageCountSpec "x * y\nA002 OK SELECT completed" = -1 := by
  constructor <;> decide

/-- C2 (amended): `approximateMessageCount(text)` is the number of
non-overlapping occurrences of the two-character substring `"* "` anywhere
in the text (not the number of lines beginning with `"* "`), minus one.
The result is never below `-1`, and it equals `-1` exactly when `"* "`
does not occur at all — in particular there is no clamping to `0`. -/
theorem c2_approx_count :
    (∀ response : String, -1 ≤ approximateMessageCount response) ∧
    (∀ response : String,
      approximateMessageCount response = -1 ↔ pyCount "* ".data response.data = 0) ∧
    approximateMessageCount "" = -1 ∧
    approximateMessageCount "* 1 EXISTS\nA002 OK SELECT completed" = 0 := by
  refine ⟨?_, ?_, by decide, by decide⟩
  · intro response
    simp only [approximateMessageCount]
    omega
  · intro response
    simp only [approximateMessageCount]
    omega

/-- C2 witness: on a response whose only lines are the tagged completion,
the count is `-1`, not clamped to `0`. -/
theorem c2_approx_count_witness :
    approximateMessageCount "A002 OK done" = -1 :=
  (c2_approx_count.2.1 "A002 OK done").mpr (by decide)

/-- C3 counterexample: a response whose only `"OK"` occurs inside a fetched
body line and whose tagged completion line is `NO`.  The code's check
(`"OK" in response`) is true, while the completion line bearing the tag
contains no `"OK"`. -/
theorem c3_counterexample :
    statusOk "* 1 FETCH body has OK inside\nA003 NO failed" = true ∧
    statusOkSpec "A003" "* 1 FETCH body has OK inside\nA003 NO failed" = false := by
  constructor <;> decide

/-- C3 (amended): the statusOk fact is true iff the substring `"OK"`
occurs anywhere in the response text; an `"OK"` that appears only inside a
fetched message body does make it true.  Every response whose tagged
completion line carries `"OK"` also makes it true. -/
theorem c3_status_ok :
    (∀ response : String, statusOk response = true ↔ "OK".data <:+: response.data) ∧
    (∀ tag response : String,
      statusOkSpec tag response = true → statusOk response = true) := by
  constructor
  · intro response
    exact pyIn_iff "OK" response
  · intro tag response h
    rcases List.any_eq_true.mp h with ⟨l, hl, hp⟩
    have h2 := (Bool.and_eq_true _ _).mp hp
    have hOK : "OK".data <:+: l := (occursIn_iff _ _).mp h2.2
    have hlin : l <:+: response.data := mem_splitOnNl_infix response.data l hl
    exact (pyIn_iff "OK" response).mpr (hOK.trans hlin)

/-- C3 witness: a response with `"OK"` on its tagged completion line
satisfies the code's check. -/
theorem c3_status_ok_witness :
    statusOkSpec "A001" "* CAPABILITY IMAP4rev1\nA001 OK done" = true ∧
    statusOk "* CAPABILITY IMAP4rev1\nA001 OK done" = true :=
  ⟨by decide, c3_status_ok.2 "A001" "* CAPABILITY IMAP4rev1\nA001 OK done" (by decide)⟩

/-! ### IMAP command tags -/

/-- Tag in the `A%03d` format used by all the IMAP scripts: the letter `A`
followed by the zero-padded three-digit decimal of `n`. -/
def imapTag (n : Nat) : String :=
  "A" ++ (if n < 10 then "00" else if n < 100 then "0" else "") ++ toString n

/-- Numeric part of a tag: decimal value of the characters after the
leading letter. -/
def tagNum (t : String) : Nat :=
  (t.data.drop 1).foldl (fun acc c => acc * 10 + (c.toNat - 48)) 0

/-- Tags issued by `test_complete_flow` in `test-imap-full.py`
(lines 29, 38, 47, 56, 61), in order. -/
def test_imap_full_tags : List String := ["A001", "A002", "A003", "A004", "A005"]

/-- Tags issued by `test_imap_read` in `test-imap-e2e.py` (lines 29, 33,
44, 59): the `A003` FETCH is issued only when the `EXISTS` count was
found in the SELECT response. -/
def test_imap_e2e_tags (existsFound : Bool) : List String :=
  if existsFound then ["A001", "A002", "A003", "A004"] else ["A001", "A002", "A004"]

/-- Tags issued by `test_imap` in `test-imap.py` (lines 29, 33, 37, 41). -/
def test_imap_tags : List String := ["A001", "A002", "A003", "A004"]

/-- Both lexical and numeric strict increase between consecutive tags.
Lexical order on strings is the lexicographic order of their character
lists, which is exactly how `<` on `String` is defined. -/
def tagIncreasing (a b : String) : Prop := a.data < b.data ∧ tagNum a < tagNum b

instance (a b : String) : Decidable (tagIncreasing a b) :=
  inferInstanceAs (Decidable (a.data < b.data ∧ tagNum a < tagNum b))

/-- The lexical half of `tagIncreasing` is the `<` order on `String`. -/
theorem tagIncreasing_lt {a b : String} (h : tagIncreasing a b) : a < b :=
  String.lt_iff_toList_lt.mpr h.1

/-- C4: on every session driven by the scripts, consecutive command tags
strictly increase both lexically and numerically, follow the `A%03d`
format starting at `A001`, and are never reused within the session (this
also holds on the branch of `test-imap-e2e.py` that skips the FETCH). -/
theorem c4_tags_strictly_increasing :
    test_imap_full_tags = (List.range 5).map (fun i => imapTag (i + 1)) ∧
    test_imap_full_tags.Chain' tagIncreasing ∧
    test_imap_full_tags.Nodup ∧
    test_imap_tags = (List.range 4).map (fun i => imapTag (i + 1)) ∧
    test_imap_tags.Chain' tagIncreasing ∧
    test_imap_tags.Nodup ∧
    (test_imap_e2e_tags true).Chain' tagIncreasing ∧
    (test_imap_e2e_tags false).Chain' tagIncreasing ∧
    (test_imap_e2e_tags true).Nodup ∧
    (test_imap_e2e_tags false).Nodup := by
  refine ⟨by decide, ?_, by decide, by decide, ?_, by decide, ?_, ?_, by decide, by decide⟩
  · exact List.chain'_cons.mpr ⟨by decide, List.chain'_cons.mpr ⟨by decide,
      List.chain'_cons.mpr ⟨by decide, List.chain'_cons.mpr ⟨by decide,
      List.chain'_singleton _⟩⟩⟩⟩
  · exact List.chain'_cons.mpr ⟨by decide, List.chain'_cons.mpr ⟨by decide,
      List.chain'_cons.mpr ⟨by decide, List.chain'_singleton _⟩⟩⟩
  · show List.Chain' tagIncreasing ["A001", "A002", "A003", "A004"]
    exact List.chain'_cons.mpr ⟨by decide, List.chain'_cons.mpr ⟨by decide,
      List.chain'_cons.mpr ⟨by decide, List.chain'_singleton _⟩⟩⟩
  · show List.Chain' tagIncreasing ["A001", "A002", "A004"]
    exact List.chain'_cons.mpr ⟨by decide, List.chain'_cons.mpr ⟨by decide,
      List.chain'_singleton _⟩⟩

/-! ### test-imap.py (invalid-credentials scenario) -/

/-- The command lines sent by `test_imap` in `test-imap.py`
(lines 29, 33, 37, 41), in order. -/
def test_imap_commands : List String :=
  ["A001 CAPABILITY", "A002 NOOP", "A003 LOGIN test@example.com wrongpass",
   "A004 LOGOUT"]

/-- Completion status of `test_imap`: the script branches on no response
at all, so it runs to the final `Tests completed` message whatever the
server answered. -/
def test_imap_completes (_responses : List String) : Bool := true

/-- C5 counterexample: a run in which the server (wrongly) answers the
invalid LOGIN with a tagged `OK` still completes the scenario exactly as
a `NO` answer would — the script verifies nothing — and the command
sequence contains no `SELECT` at all, so no post-LOGIN SELECT is ever
checked. -/
theorem c5_counterexample :
    test_imap_completes
      ["* OK greeting", "A001 OK", "A002 OK", "A003 OK LOGIN completed",
       "A004 OK"] = true ∧
    pyIn "NO" "A003 OK LOGIN completed" = false ∧
    test_imap_commands.all (fun c => !(pyIn "SELECT" c)) = true := by
  refine ⟨rfl, by decide, by decide⟩

/-- C5 (amended): the invalid-credentials scenario sends CAPABILITY, NOOP,
`LOGIN test@example.com wrongpass` and LOGOUT; it performs no assertion on
any response (it completes identically for every server answer), and it
never issues a SELECT, so neither the tagged `NO` nor the access-denied
SELECT behavior is verified. -/
theorem c5_no_verification :
    (∀ responses : List String, test_imap_completes responses = true) ∧
    test_imap_commands[2]? = some "A003 LOGIN test@example.com wrongpass" ∧
    test_imap_commands.all (fun c => !(pyIn "SELECT" c)) = true := by
  exact ⟨fun _ => rfl, by decide, by decide⟩

/-! ### test_spf_dkim.py — mailbox inspection -/

/-- Abstract view of the filesystem as seen by
`check_authentication_header` (`test_spf_dkim.py` lines 62-83):
`present` models `os.path.exists`, `listing` models
`glob.glob(dir + "/*")` and `ctime` models `os.path.getctime`. -/
structure MaildirFS where
  present : String → Bool
  ctime : String → Nat
  listing : String → List String

/-- The primary maildir root used first (`test_spf_dkim.py` line 63). -/
def primary_maildir : String := "data/maildir/admin@delfour.co/new"

/-- The alternate root tried when the primary does not exist
(`test_spf_dkim.py` line 66). -/
def fallback_maildir : String := "mail-rs/data/maildir/admin@delfour.co/new"

/-- Directory actually used after the fallback test
(`test_spf_dkim.py` lines 63-66). -/
def resolved_maildir (fs : MaildirFS) : String :=
  if fs.present primary_maildir then primary_maildir else fallback_maildir

/-- Python `max(emails, key=os.path.getctime)` over a listing: `none` on
the empty list, otherwise the first entry of maximal creation time
(a later entry replaces the current best only when strictly greater). -/
def pyMaxByCtime (fs : MaildirFS) : List String → Option String
  | [] => none
  | e :: es =>
    some (es.foldl (fun best x => if fs.ctime best < fs.ctime x then x else best) e)

/-- The file selected by `check_authentication_header`
(`test_spf_dkim.py` lines 62-79): `none` models the `NotFound` failure
paths (`Maildir not found` and `No emails found in mailbox`). -/
def latest_email_file (fs : MaildirFS) : Option String :=
  if fs.present (resolved_maildir fs) then
    pyMaxByCtime fs (fs.listing (resolved_maildir fs))
  else
    none

theorem foldCtime_mem (fs : MaildirFS) (es : List String) :
    ∀ e : String,
      es.foldl (fun best x => if fs.ctime best < fs.ctime x then x else best) e
        ∈ e :: es := by
  induction es with
  | nil => intro e; simp
  | cons a as ih =>
    intro e
    simp only [List.foldl_cons]
    by_cases h : fs.ctime e < fs.ctime a
    · rw [if_pos h]
      exact List.mem_cons_of_mem e (ih a)
    · rw [if_neg h]
      rcases List.mem_cons.mp (ih e) with h1 | h2
      · simp [h1]
      · exact List.mem_cons_of_mem e (List.mem_cons_of_mem a h2)

theorem foldCtime_ge (fs : MaildirFS) (es : List String) :
    ∀ e : String, ∀ y ∈ e :: es,
      fs.ctime y ≤
        fs.ctime (es.foldl (fun best x => if fs.ctime best < fs.ctime x then x else best) e) := by
  induction es with
  | nil =>
    intro e y hy
    rw [List.mem_singleton.mp hy]
    simp
  | cons a as ih =>
    intro e y hy
    simp only [List.foldl_cons]
    by_cases h : fs.ctime e < fs.ctime a
    · rw [if_pos h]
      rcases List.mem_cons.mp hy with h1 | h2
      · rw [h1]
        exact le_trans (le_of_lt h) (ih a a (List.mem_cons_self a as))
      · exact ih a y h2
    · rw [if_neg h]
      rcases List.mem_cons.mp hy with h1 | h2
      · rw [h1]
        exact ih e e (List.mem_cons_self e as)
      · rcases List.mem_cons.mp h2 with h3 | h4
        · rw [h3]
          exact le_trans (le_of_not_lt h) (ih e e (List.mem_cons_self e as))
        · exact ih e y (List.mem_cons_of_mem e h4)

/-- C6: the inspection tries the alternate root exactly when the primary
root does not exist; every selected file is a listed entry of maximal
creation time; and the lookup fails (`NotFound`) precisely when both
configured roots are absent or the resolved directory lists no entries. -/
theorem c6_latest_message :
    (∀ fs : MaildirFS, fs.present primary_maildir = false →
      resolved_maildir fs = fallback_maildir) ∧
    (∀ fs : MaildirFS, fs.present primary_maildir = true →
      resolved_maildir fs = primary_maildir) ∧
    (∀ (fs : MaildirFS) (f : String), latest_email_file fs = some f →
      f ∈ fs.listing (resolved_maildir fs) ∧
      ∀ g ∈ fs.listing (resolved_maildir fs), fs.ctime g ≤ fs.ctime f) ∧
    (∀ fs : MaildirFS, latest_email_file fs = none ↔
      ((fs.present primary_maildir = false ∧ fs.present fallback_maildir = false) ∨
       fs.listing (resolved_maildir fs) = [])) := by
  refine ⟨?_, ?_, ?_, ?_⟩
  · intro fs h
    simp [resolved_maildir, h]
  · intro fs h
    simp [resolved_maildir, h]
  · intro fs f hf
    simp only [latest_email_file] at hf
    by_cases hp : fs.present (resolved_maildir fs)
    · rw [if_pos hp] at hf
      cases hls : fs.listing (resolved_maildir fs) with
      | nil => rw [hls] at hf; simp [pyMaxByCtime] at hf
      | cons e es =>
        rw [hls] at hf
        simp only [pyMaxByCtime, Option.some.injEq] at hf
        subst hf
        exact ⟨foldCtime_mem fs es e, fun g hg => foldCtime_ge fs es e g hg⟩
    · rw [if_neg hp] at hf
      cases hf
  · intro fs
    constructor
    · intro h
      simp only [latest_email_file] at h
      by_cases hp : fs.present (resolved_maildir fs)
      · rw [if_pos hp] at h
        cases hls : fs.listing (resolved_maildir fs) with
        | nil => exact Or.inr rfl
        | cons e es =>
          rw [hls] at h
          exact absurd h (by simp [pyMaxByCtime])
      · left
        by_cases h1 : fs.present primary_maildir
        · exact absurd hp (by simp [resolved_maildir, h1])
        · refine ⟨Bool.eq_false_iff.mpr h1, ?_⟩
          have : resolved_maildir fs = fallback_maildir := by
            simp [resolved_maildir, h1]
          rw [this] at hp
          exact Bool.eq_false_iff.mpr hp
    · intro h
      simp only [latest_email_file]
      rcases h with ⟨h1, h2⟩ | hls
      · have hres : resolved_maildir fs = fallback_maildir := by
          simp [resolved_maildir, h1]
        rw [hres, h2]
        simp
      · by_cases hp : fs.present (resolved_maildir fs)
        · rw [if_pos hp, hls]; rfl
        · rw [if_neg hp]

/-- Concrete filesystem for the C6 witness: the primary root is absent,
the fallback root holds three files with creation times 1, 2, 1. -/
def fsEx : MaildirFS where
  present := fun s => s == fallback_maildir
  ctime := fun s => if s == "b" then 2 else 1
  listing := fun s => if s == fallback_maildir then ["a", "b", "c"] else []

/-- C6 witness: on `fsEx` the alternate root is used, and the selected
file `"b"` is a listed entry of maximal creation time. -/
theorem c6_latest_message_witness :
    resolved_maildir fsEx = fallback_maildir ∧
    (("b" : String) ∈ fsEx.listing (resolved_maildir fsEx) ∧
      ∀ g ∈ fsEx.listing (resolved_maildir fsEx), fsEx.ctime g ≤ fsEx.ctime "b") :=
  ⟨c6_latest_message.1 fsEx (by decide),
   c6_latest_message.2.2.1 fsEx "b" (by decide)⟩

/-! ### Process exit codes and session close behavior -/

/-- Exit code of `main` in `test_spf_dkim.py` (lines 115-142): `0` when
the send step and the header check both succeed, `1` otherwise (the check
only runs when the send succeeded). -/
def spf_dkim_main_exit (sendOk checkOk : Bool) : Nat :=
  if sendOk then (if checkOk then 0 else 1) else 1

/-- Step checks of `test_complete_flow` in `test-imap-full.py`
(lines 30, 39, 48): LOGIN, SELECT and FETCH each succeed iff their
response contains `"OK"`. -/
def test_complete_flow_steps_ok (r1 r2 r3 : String) : Bool :=
  statusOk r1 && statusOk r2 && statusOk r3

/-- Process exit code of `test-imap-full.py`: the script calls
`test_complete_flow()` at module level (line 67) and never passes a
failure to `exit`, so the process ends with status 0 whatever the step
outcomes were (failed steps only print a message and return early). -/
def test_imap_full_exit (_r1 _r2 _r3 : String) : Nat := 0

/-- C7 counterexample: a run of `test-imap-full.py` whose LOGIN step
fails (response `"A001 NO LOGIN failed!"` contains no `"OK"`) still makes
the process exit with code 0. -/
theorem c7_counterexample :
    test_imap_full_exit "A001 NO LOGIN failed!" "irrelevant" "irrelevant" = 0 ∧
    test_complete_flow_steps_ok "A001 NO LOGIN failed!" "irrelevant" "irrelevant"
      = false := by
  exact ⟨rfl, by decide⟩

/-- C7 (amended): the SPF/DKIM harness `test_spf_dkim.py` exits with code
0 iff both its steps succeed and 1 otherwise; but the IMAP flow script
`test-imap-full.py` always exits with code 0, even when a step check
failed — its failures are reported only on standard output. -/
theorem c7_exit_code :
    (∀ sendOk checkOk : Bool,
      spf_dkim_main_exit sendOk checkOk = 0 ↔ (sendOk = true ∧ checkOk = true)) ∧
    (∀ r1 r2 r3 : String, test_imap_full_exit r1 r2 r3 = 0) := by
  constructor
  · intro s c
    cases s <;> cases c <;> simp [spf_dkim_main_exit]
  · intro _ _ _
    rfl

/-- C7 witness: full success of the SPF/DKIM harness gives exit code 0. -/
theorem c7_exit_code_witness : spf_dkim_main_exit true true = 0 :=
  (c7_exit_code.1 true true).mpr ⟨rfl, rfl⟩

/-- Whether `test_complete_flow` reaches `sock.close()` (`test-imap-full.py`
line 63): the close runs only after all three checked steps succeeded;
each failed check returns from the function without closing. -/
def test_complete_flow_sock_closed (r1 r2 r3 : String) : Bool :=
  if statusOk r1 then
    (if statusOk r2 then (if statusOk r3 then true else false) else false)
  else false

/-- Whether the SMTP session of `send_test_email` (`test_spf_dkim.py`
lines 31-45) is closed: the connection is managed by a `with` block, so it
is closed on success and failure alike. -/
def send_test_email_closed (_sendOk : Bool) : Bool := true

/-- C8 counterexample: when the LOGIN check of `test_complete_flow` fails,
the function returns before `sock.close()` — the IMAP socket is not closed
on that exit path. -/
theorem c8_counterexample :
    test_complete_flow_sock_closed "A001 NO LOGIN failed!" "x" "y" = false := by
  decide

/-- C8 (amended): the SMTP session of `send_test_email` is closed on every
exit path (scoped `with` block), but the IMAP socket of
`test_complete_flow` is closed exactly when all three checked steps
succeed; an assertion failure returns early without closing it. -/
theorem c8_session_close :
    (∀ sendOk : Bool, send_test_email_closed sendOk = true) ∧
    (∀ r1 r2 r3 : String,
      test_complete_flow_sock_closed r1 r2 r3 = true ↔
        (statusOk r1 = true ∧ statusOk r2 = true ∧ statusOk r3 = true)) := by
  constructor
  · intro _
    rfl
  · intro r1 r2 r3
    by_cases h1 : statusOk r1 <;> by_cases h2 : statusOk r2 <;>
      by_cases h3 : statusOk r3 <;>
      simp [test_complete_flow_sock_closed, h1, h2, h3]

/-- C8 witness: on a fully successful run the socket is closed. -/
theorem c8_session_close_witness :
    test_complete_flow_sock_closed "A001 OK" "A002 OK" "A003 OK" = true :=
  (c8_session_close.2 "A001 OK" "A002 OK" "A003 OK").mpr
    ⟨by decide, by decide, by decide⟩

/-! ### test_spf_dkim.py — header inspection -/

/-- ASCII lowering of one character; models Python `str.lower` on the
ASCII range, which covers all the header tokens involved. -/
def charLowerAscii (c : Char) : Char :=
  if 'A' ≤ c ∧ c ≤ 'Z' then Char.ofNat (c.toNat + 32) else c

/-- ASCII lowering of a string (Python `content.lower()`). -/
def lowerAscii (s : String) : String := String.mk (s.data.map charLowerAscii)

/-- Verdict of the inspection part of `check_authentication_header`
(`test_spf_dkim.py` lines 85-113): the function returns `True` iff
`'Authentication-Results:' in content`. -/
def check_auth_header_verdict (content : String) : Bool :=
  pyIn "Authentication-Results:" content

/-- `has_spf = 'spf=' in content.lower()` (`test_spf_dkim.py` line 99);
computed for display only. -/
def has_spf (content : String) : Bool := pyIn "spf=" (lowerAscii content)

/-- `has_dkim = 'dkim=' in content.lower()` (`test_spf_dkim.py` line 101);
computed for display only. -/
def has_dkim (content : String) : Bool := pyIn "dkim=" (lowerAscii content)

/-- C9 counterexample: a message whose `Authentication-Results:` header
carries neither an `spf=` nor a `dkim=` token still makes the inspection
step report success. -/
theorem c9_counterexample :
    check_auth_header_verdict "Authentication-Results: mx1; none\n\nHello" = true ∧
    has_spf "Authentication-Results: mx1; none\n\nHello" = false ∧
    has_dkim "Authentication-Results: mx1; none\n\nHello" = false := by
  refine ⟨by decide, by decide, by decide⟩

/-- C9 (amended): the inspection step reports success iff the message
content contains the substring `Authentication-Results:` anywhere; the
case-insensitive `spf=` and `dkim=` tokens are detected and printed but do
not influence the verdict, so their absence does not fail the step. -/
theorem c9_auth_check :
    (∀ content : String,
      check_auth_header_verdict content = true ↔
        "Authentication-Results:".data <:+: content.data) ∧
    check_auth_header_verdict
      "Authentication-Results: mx1; spf=pass\n\nBody" = true ∧
    check_auth_header_verdict "Subject: no auth header\n\nBody" = false := by
  refine ⟨?_, by decide, by decide⟩
  intro content
  exact pyIn_iff "Authentication-Results:" content

/-- C9 witness: a content containing the header makes the verdict true,
through the main equivalence. -/
theorem c9_auth_check_witness :
    check_auth_header_verdict "X: y\nAuthentication-Results: mx1; dkim=pass\n" = true :=
  (c9_auth_check.1 "X: y\nAuthentication-Results: mx1; dkim=pass\n").mpr
    ((pyIn_iff _ _).mp (by decide))

/-! ### Single bounded receive per command -/

/-- One `sock.recv(bufSize)` on a stream with `pending` undelivered bytes:
returns at most `bufSize` of them and leaves the rest undelivered.  This
models the single receive performed by every `send_command` after its
fixed sleep. -/
def recv_once (bufSize : Nat) (pending : List Char) : List Char × List Char :=
  (pending.take bufSize, pending.drop bufSize)

/-- Buffer size of `send_command` in `send-smtp-raw.py` (line 13). -/
def send_smtp_raw_bufsize : Nat := 4096

/-- Buffer size of `send_command` in `test-imap-e2e.py` (line 12). -/
def test_imap_e2e_bufsize : Nat := 8192

/-- Buffer size of `send_command` in `test-imap-all.py` (line 12). -/
def test_imap_all_bufsize : Nat := 16384

/-- C10: each `send_command` performs one bounded receive: the returned
text is the first `bufSize` pending characters — an initial segment of the
server's full pending response, of length at most the script's fixed
buffer size (4096, 8192 or 16384) — and the bytes beyond it stay pending.
Whenever more than `bufSize` characters are pending, the returned text is
a strict initial segment of the full response. -/
theorem c10_single_recv :
    (∀ (bufSize : Nat) (pending : List Char),
      (recv_once bufSize pending).1 ++ (recv_once bufSize pending).2 = pending ∧
      (recv_once bufSize pending).1.length ≤ bufSize ∧
      (recv_once bufSize pending).1 <+: pending) ∧
    (∀ bufSize : Nat, ∀ pending : List Char, bufSize < pending.length →
      (recv_once bufSize pending).1 ≠ pending) ∧
    send_smtp_raw_bufsize = 4096 ∧
    test_imap_e2e_bufsize = 8192 ∧
    test_imap_all_bufsize = 16384 := by
  refine ⟨?_, ?_, rfl, rfl, rfl⟩
  · intro bufSize pending
    refine ⟨List.take_append_drop bufSize pending, ?_, ?_⟩
    · rw [recv_once, List.length_take]
      exact Nat.min_le_left _ _
    · exact ⟨pending.drop bufSize, List.take_append_drop bufSize pending⟩
  · intro bufSize pending h heq
    have := congrArg List.length heq
    rw [recv_once, List.length_take] at this
    omega

/-- C10 witness: with buffer 4096 and 4097 pending characters, the one
receive returns a strict initial segment. -/
theorem c10_single_recv_witness :
    (recv_once send_smtp_raw_bufsize (List.replicate 4097 'a')).1
      ≠ List.replicate 4097 'a' :=
  c10_single_recv.2.1 send_smtp_raw_bufsize (List.replicate 4097 'a')
    (by rw [List.length_replicate]; norm_num [send_smtp_raw_bufsize])

end MailHarness
